import Mathlib

/-!
Verification of the coordinate primitives of `schwarzschild_black_holes`
(src/c/sbh_vec4.h): a 4-component vector struct and the conversions
between Schwarzschild coordinates (r, phi, theta, t) and rectangular
(Cartesian) coordinates (x, y, z, t).

The C functions operate on IEEE-754 doubles with the platform libm
trigonometric functions.  We embed them shallowly and polymorphically:
the scalar type is an arbitrary type with a multiplication, and the
trigonometric functions are passed in as parameters, so the structural
(data-flow) facts hold for every interpretation of the scalars,
including doubles.  The numerical facts are proved in the standard
real-number model, instantiating the scalars at the reals and the
trigonometric parameters at the exact functions.
-/

/-- The struct `sbh_vec4` of src/c/sbh_vec4.h: an array `dat` of four
scalars, indexed 0..3.  Slot 3 is always the time component. -/
@[ext]
structure sbh_vec4 (α : Type) where
  dat : Fin 4 → α

/-- Overwriting one slot of the array, modelling an assignment
`p.dat[i] = x;` through the struct. -/
def sbh_vec4.set {α : Type} (p : sbh_vec4 α) (i : Fin 4) (x : α) :
    sbh_vec4 α :=
  ⟨Function.update p.dat i x⟩

/-- `sbh_vec4_rect` of src/c/sbh_vec4.h: builds the vector (x, y, z, t),
storing the four arguments verbatim in slots 0, 1, 2, 3. -/
def sbh_vec4_rect {α : Type} (x y z t : α) : sbh_vec4 α :=
  ⟨![x, y, z, t]⟩

/-- `sbh_vec4_rect_from_schwarzschild` of src/c/sbh_vec4.h: given
Schwarzschild coordinates (r, phi, theta, t), computes the conversion
factors sin(phi), cos(phi), sin(theta), cos(theta) and returns the
vector with slots r*sin_theta*cos_phi, r*sin_theta*sin_phi,
r*cos_theta, t.  The trigonometric functions are parameters of the
embedding. -/
def sbh_vec4_rect_from_schwarzschild {α : Type} [Mul α]
    (sin cos : α → α) (r phi theta t : α) : sbh_vec4 α :=
  let sin_phi := sin phi
  let cos_phi := cos phi
  let sin_theta := sin theta
  let cos_theta := cos theta
  ⟨![r * sin_theta * cos_phi, r * sin_theta * sin_phi,
     r * cos_theta, t]⟩

/-- `sbh_vec4_schwarzschild_to_rect` of src/c/sbh_vec4.h: passes the
four slots of the input vector, in order, to
`sbh_vec4_rect_from_schwarzschild` and returns the result. -/
def sbh_vec4_schwarzschild_to_rect {α : Type} [Mul α]
    (sin cos : α → α) (q : sbh_vec4 α) : sbh_vec4 α :=
  sbh_vec4_rect_from_schwarzschild sin cos
    (q.dat 0) (q.dat 1) (q.dat 2) (q.dat 3)

/-- `sbh_vec4_convert_schwarzschild_to_rect` of src/c/sbh_vec4.h: the
in-place variant.  It first saves r = p.dat[0] and the four conversion
factors computed from p.dat[1] and p.dat[2], then assigns slots 0, 1, 2
in that order.  The C function mutates through a pointer; the embedding
models it as a state transformer on the struct value, with the three
assignments as sequential updates. -/
def sbh_vec4_convert_schwarzschild_to_rect {α : Type} [Mul α]
    (sin cos : α → α) (p : sbh_vec4 α) : sbh_vec4 α :=
  let r := p.dat 0
  let sin_phi := sin (p.dat 1)
  let cos_phi := cos (p.dat 1)
  let sin_theta := sin (p.dat 2)
  let cos_theta := cos (p.dat 2)
  let p1 := p.set 0 (r * sin_theta * cos_phi)
  let p2 := p1.set 1 (r * sin_theta * sin_phi)
  p2.set 2 (r * cos_theta)

/-- Closed form of the in-place conversion: the result is the vector
whose slots 0..2 are the conversion formulas evaluated at the original
slots of p, and whose slot 3 is the original slot 3. -/
theorem sbh_vec4_convert_closed_form {α : Type} [Mul α]
    (sin cos : α → α) (p : sbh_vec4 α) :
    sbh_vec4_convert_schwarzschild_to_rect sin cos p =
      ⟨![p.dat 0 * sin (p.dat 2) * cos (p.dat 1),
         p.dat 0 * sin (p.dat 2) * sin (p.dat 1),
         p.dat 0 * cos (p.dat 2), p.dat 3]⟩ := by
  ext i
  fin_cases i <;>
    simp [sbh_vec4_convert_schwarzschild_to_rect, sbh_vec4.set,
      Function.update]

/-- Slotwise description of `sbh_vec4_rect_from_schwarzschild`. -/
theorem sbh_vec4_rect_from_schwarzschild_dat {α : Type} [Mul α]
    (sin cos : α → α) (r phi theta t : α) :
    (sbh_vec4_rect_from_schwarzschild sin cos r phi theta t).dat 0 =
        r * sin theta * cos phi ∧
      (sbh_vec4_rect_from_schwarzschild sin cos r phi theta t).dat 1 =
        r * sin theta * sin phi ∧
      (sbh_vec4_rect_from_schwarzschild sin cos r phi theta t).dat 2 =
        r * cos theta ∧
      (sbh_vec4_rect_from_schwarzschild sin cos r phi theta t).dat 3 =
        t := by
  refine ⟨rfl, rfl, rfl, rfl⟩

/-- C1: for every r, phi, theta, t, `sbh_vec4_rect_from_schwarzschild`
returns the vector whose slot 0 is r*sin(theta)*cos(phi), slot 1 is
r*sin(theta)*sin(phi), slot 2 is r*cos(theta) and slot 3 is t, with
theta the polar angle and phi the azimuth (real-number model of the
double-precision computation). -/
theorem from_schwarzschild_formula (r phi theta t : ℝ) :
    (sbh_vec4_rect_from_schwarzschild Real.sin Real.cos
        r phi theta t).dat 0 = r * Real.sin theta * Real.cos phi ∧
      (sbh_vec4_rect_from_schwarzschild Real.sin Real.cos
        r phi theta t).dat 1 = r * Real.sin theta * Real.sin phi ∧
      (sbh_vec4_rect_from_schwarzschild Real.sin Real.cos
        r phi theta t).dat 2 = r * Real.cos theta ∧
      (sbh_vec4_rect_from_schwarzschild Real.sin Real.cos
        r phi theta t).dat 3 = t :=
  sbh_vec4_rect_from_schwarzschild_dat Real.sin Real.cos r phi theta t

/-- C2: for every vector v (in any scalar interpretation),
`sbh_vec4_schwarzschild_to_rect` and the in-place
`sbh_vec4_convert_schwarzschild_to_rect` produce identical values in
slots 0, 1 and 2, and in both results slot 3 equals the original
slot 3 of v. -/
theorem to_rect_agrees_with_convert_in_place (v : sbh_vec4 ℝ) :
    (sbh_vec4_schwarzschild_to_rect Real.sin Real.cos v).dat 0 =
        (sbh_vec4_convert_schwarzschild_to_rect Real.sin Real.cos
          v).dat 0 ∧
      (sbh_vec4_schwarzschild_to_rect Real.sin Real.cos v).dat 1 =
        (sbh_vec4_convert_schwarzschild_to_rect Real.sin Real.cos
          v).dat 1 ∧
      (sbh_vec4_schwarzschild_to_rect Real.sin Real.cos v).dat 2 =
        (sbh_vec4_convert_schwarzschild_to_rect Real.sin Real.cos
          v).dat 2 ∧
      (sbh_vec4_schwarzschild_to_rect Real.sin Real.cos v).dat 3 =
        v.dat 3 ∧
      (sbh_vec4_convert_schwarzschild_to_rect Real.sin Real.cos
          v).dat 3 = v.dat 3 := by
  rw [sbh_vec4_convert_closed_form]
  refine ⟨rfl, rfl, rfl, rfl, rfl⟩

/-- C3: `sbh_vec4_schwarzschild_to_rect` is a pure pass-through: it
equals `sbh_vec4_rect_from_schwarzschild` applied to the four slots of
its argument taken in order. -/
theorem to_rect_is_pass_through (v : sbh_vec4 ℝ) :
    sbh_vec4_schwarzschild_to_rect Real.sin Real.cos v =
      sbh_vec4_rect_from_schwarzschild Real.sin Real.cos
        (v.dat 0) (v.dat 1) (v.dat 2) (v.dat 3) :=
  rfl

/-- C4: the in-place conversion leaves slot 3 unchanged, and the new
slots 0..2 are computed entirely from the original values of slots
0..2 of the input (r from slot 0, the azimuth from slot 1, the polar
angle from slot 2): all reads of the pre-image happen before any
write. -/
theorem convert_in_place_frame (v : sbh_vec4 ℝ) :
    (sbh_vec4_convert_schwarzschild_to_rect Real.sin Real.cos
        v).dat 3 = v.dat 3 ∧
      (sbh_vec4_convert_schwarzschild_to_rect Real.sin Real.cos
        v).dat 0 = v.dat 0 * Real.sin (v.dat 2) * Real.cos (v.dat 1) ∧
      (sbh_vec4_convert_schwarzschild_to_rect Real.sin Real.cos
        v).dat 1 = v.dat 0 * Real.sin (v.dat 2) * Real.sin (v.dat 1) ∧
      (sbh_vec4_convert_schwarzschild_to_rect Real.sin Real.cos
        v).dat 2 = v.dat 0 * Real.cos (v.dat 2) := by
  rw [sbh_vec4_convert_closed_form]
  refine ⟨rfl, rfl, rfl, rfl⟩

/-- C5: in the real-number model the spatial part (x, y, z) of
`sbh_vec4_rect_from_schwarzschild r phi theta t` satisfies
x^2 + y^2 + z^2 = r^2 exactly; in particular the deviation is within
the stated floating-point tolerance of 1e-9 relative to r^2. -/
theorem from_schwarzschild_norm_sq (r phi theta t : ℝ) :
    (sbh_vec4_rect_from_schwarzschild Real.sin Real.cos
          r phi theta t).dat 0 ^ 2 +
        (sbh_vec4_rect_from_schwarzschild Real.sin Real.cos
          r phi theta t).dat 1 ^ 2 +
        (sbh_vec4_rect_from_schwarzschild Real.sin Real.cos
          r phi theta t).dat 2 ^ 2 = r ^ 2 ∧
      |(sbh_vec4_rect_from_schwarzschild Real.sin Real.cos
            r phi theta t).dat 0 ^ 2 +
          (sbh_vec4_rect_from_schwarzschild Real.sin Real.cos
            r phi theta t).dat 1 ^ 2 +
          (sbh_vec4_rect_from_schwarzschild Real.sin Real.cos
            r phi theta t).dat 2 ^ 2 - r ^ 2| ≤ 1e-9 * r ^ 2 := by
  have hphi := Real.sin_sq_add_cos_sq phi
  have htheta := Real.sin_sq_add_cos_sq theta
  have key : (sbh_vec4_rect_from_schwarzschild Real.sin Real.cos
        r phi theta t).dat 0 ^ 2 +
      (sbh_vec4_rect_from_schwarzschild Real.sin Real.cos
        r phi theta t).dat 1 ^ 2 +
      (sbh_vec4_rect_from_schwarzschild Real.sin Real.cos
        r phi theta t).dat 2 ^ 2 = r ^ 2 := by
    show (r * Real.sin theta * Real.cos phi) ^ 2 +
        (r * Real.sin theta * Real.sin phi) ^ 2 +
        (r * Real.cos theta) ^ 2 = r ^ 2
    have h1 : (r * Real.sin theta * Real.cos phi) ^ 2 +
        (r * Real.sin theta * Real.sin phi) ^ 2 +
        (r * Real.cos theta) ^ 2 =
        r ^ 2 * ((Real.sin phi ^ 2 + Real.cos phi ^ 2) *
          Real.sin theta ^ 2 + Real.cos theta ^ 2) := by
      ring
    rw [h1, hphi, one_mul, htheta, mul_one]
  refine ⟨key, ?_⟩
  rw [key, sub_self, abs_zero]
  positivity

/-- C6: at the poles, for every r, phi and t, theta = 0 sends the
spatial part to (0, 0, r) and theta = pi sends it to (0, 0, -r). -/
theorem from_schwarzschild_poles (r phi t : ℝ) :
    (sbh_vec4_rect_from_schwarzschild Real.sin Real.cos
          r phi 0 t).dat 0 = 0 ∧
      (sbh_vec4_rect_from_schwarzschild Real.sin Real.cos
          r phi 0 t).dat 1 = 0 ∧
      (sbh_vec4_rect_from_schwarzschild Real.sin Real.cos
          r phi 0 t).dat 2 = r ∧
      (sbh_vec4_rect_from_schwarzschild Real.sin Real.cos
          r phi Real.pi t).dat 0 = 0 ∧
      (sbh_vec4_rect_from_schwarzschild Real.sin Real.cos
          r phi Real.pi t).dat 1 = 0 ∧
      (sbh_vec4_rect_from_schwarzschild Real.sin Real.cos
          r phi Real.pi t).dat 2 = -r := by
  refine ⟨?_, ?_, ?_, ?_, ?_, ?_⟩ <;>
    simp [sbh_vec4_rect_from_schwarzschild, Real.sin_pi, Real.cos_pi]

/-- C7: at the origin, for every phi, theta and t, r = 0 sends the
spatial part to (0, 0, 0) regardless of the angles. -/
theorem from_schwarzschild_origin (phi theta t : ℝ) :
    (sbh_vec4_rect_from_schwarzschild Real.sin Real.cos
          0 phi theta t).dat 0 = 0 ∧
      (sbh_vec4_rect_from_schwarzschild Real.sin Real.cos
          0 phi theta t).dat 1 = 0 ∧
      (sbh_vec4_rect_from_schwarzschild Real.sin Real.cos
          0 phi theta t).dat 2 = 0 := by
  refine ⟨?_, ?_, ?_⟩ <;> simp [sbh_vec4_rect_from_schwarzschild]

/-- C8: for every four scalars x, y, z, t of any scalar type (hence
for every double, including non-finite values), `sbh_vec4_rect` stores
its arguments verbatim in slots 0, 1, 2, 3; in particular at
(1, 2, 3, 4) the slots are exactly (1, 2, 3, 4). -/
theorem construct_rectangular_verbatim :
    (∀ (α : Type) (x y z t : α),
        (sbh_vec4_rect x y z t).dat 0 = x ∧
          (sbh_vec4_rect x y z t).dat 1 = y ∧
          (sbh_vec4_rect x y z t).dat 2 = z ∧
          (sbh_vec4_rect x y z t).dat 3 = t) ∧
      (sbh_vec4_rect (1 : ℝ) 2 3 4).dat 0 = 1 ∧
      (sbh_vec4_rect (1 : ℝ) 2 3 4).dat 1 = 2 ∧
      (sbh_vec4_rect (1 : ℝ) 2 3 4).dat 2 = 3 ∧
      (sbh_vec4_rect (1 : ℝ) 2 3 4).dat 3 = 4 :=
  ⟨fun _ _ _ _ _ => ⟨rfl, rfl, rfl, rfl⟩, rfl, rfl, rfl, rfl⟩

/-- C9: every public operation is total: for every input each of
`sbh_vec4_rect`, `sbh_vec4_rect_from_schwarzschild`,
`sbh_vec4_schwarzschild_to_rect` and
`sbh_vec4_convert_schwarzschild_to_rect` produces a result vector;
none of them has an error return, and their embeddings are plain
functions into `sbh_vec4`, not into an error type. -/
theorem operations_total (x y z t : ℝ) (q : sbh_vec4 ℝ) :
    (∃ v, sbh_vec4_rect x y z t = v) ∧
      (∃ v, sbh_vec4_rect_from_schwarzschild Real.sin Real.cos
        x y z t = v) ∧
      (∃ v, sbh_vec4_schwarzschild_to_rect Real.sin Real.cos q = v) ∧
      (∃ v, sbh_vec4_convert_schwarzschild_to_rect Real.sin Real.cos
        q = v) :=
  ⟨⟨_, rfl⟩, ⟨_, rfl⟩, ⟨_, rfl⟩, ⟨_, rfl⟩⟩

/-- C10: `sbh_vec4_rect_from_schwarzschild` is exactly odd in its
radial argument: each spatial slot at -r is the negation of the
corresponding spatial slot at r, and slot 3 is the same t in both
(real-number model; the formulas impose no restriction r ≥ 0). -/
theorem from_schwarzschild_odd_in_r (r phi theta t : ℝ) :
    (sbh_vec4_rect_from_schwarzschild Real.sin Real.cos
          (-r) phi theta t).dat 0 =
        -(sbh_vec4_rect_from_schwarzschild Real.sin Real.cos
          r phi theta t).dat 0 ∧
      (sbh_vec4_rect_from_schwarzschild Real.sin Real.cos
          (-r) phi theta t).dat 1 =
        -(sbh_vec4_rect_from_schwarzschild Real.sin Real.cos
          r phi theta t).dat 1 ∧
      (sbh_vec4_rect_from_schwarzschild Real.sin Real.cos
          (-r) phi theta t).dat 2 =
        -(sbh_vec4_rect_from_schwarzschild Real.sin Real.cos
          r phi theta t).dat 2 ∧
      (sbh_vec4_rect_from_schwarzschild Real.sin Real.cos
          (-r) phi theta t).dat 3 =
        (sbh_vec4_rect_from_schwarzschild Real.sin Real.cos
          r phi theta t).dat 3 := by
  refine ⟨?_, ?_, ?_, rfl⟩
  · show -r * Real.sin theta * Real.cos phi =
      -(r * Real.sin theta * Real.cos phi)
    ring
  · show -r * Real.sin theta * Real.sin phi =
      -(r * Real.sin theta * Real.sin phi)
    ring
  · show -r * Real.cos theta = -(r * Real.cos theta)
    ring
